import Mathlib

/-!
Verification of `app/routes.py` of the surface_parking_lots repository.

The geometry pipeline of `get_parking_lots_polygons` is embedded over an
arbitrary point type `α` with decidable equality (the Python code compares
coordinate pairs only with `!=`/`==`); numeric values (latitudes, longitudes,
areas) are embedded as rationals.  Calls into third-party libraries
(shapely validity, pyproj projection and area, folium rendering, the HTTP
layer) are oracle parameters of the Lean functions: the Lean definitions
capture exactly the control flow and arithmetic written in `routes.py`.
-/

/-- Coordinate cleanup loop body of `get_parking_lots_polygons`
(`for pt in raw_coords[1:]: if pt != coords[-1]: coords.append(pt)`):
given the last retained point, keep each subsequent point only when it
differs from the previously retained one. -/
def dedupFrom {α : Type} [DecidableEq α] (last : α) : List α → List α
  | [] => []
  | p :: rest => if p ≠ last then p :: dedupFrom p rest else dedupFrom last rest

/-- Consecutive-duplicate removal of `get_parking_lots_polygons`
(`coords = [raw_coords[0]]` followed by the cleanup loop); the empty list is
mapped to the empty list. -/
def dedupConsec {α : Type} [DecidableEq α] : List α → List α
  | [] => []
  | p :: rest => p :: dedupFrom p rest

/-- Closing-point removal of `get_parking_lots_polygons`
(`if len(coords) > 2 and coords[0] == coords[-1]: coords.pop()`). -/
def dropClosing {α : Type} [DecidableEq α] (l : List α) : List α :=
  if 2 < l.length ∧ l.head? = l.getLast? then l.dropLast else l

/-- The whole coordinate cleanup step of `get_parking_lots_polygons`:
deduplicate consecutive points, then drop a redundant closing point. -/
def cleanCoords {α : Type} [DecidableEq α] (l : List α) : List α :=
  dropClosing (dedupConsec l)

theorem cons_dedupFrom {α : Type} [DecidableEq α] (a : α) (l : List α) :
    a :: dedupFrom a l = List.destutter' (· ≠ ·) a l := by
  induction l generalizing a with
  | nil => simp [dedupFrom, List.destutter'_nil]
  | cons b l ih =>
    rw [dedupFrom, List.destutter'_cons]
    by_cases h : b = a
    · rw [if_neg (by simp [h]), if_neg (by simp [h]), ih]
    · rw [if_pos h, if_pos (Ne.symm h), ih]

theorem dedupConsec_eq_destutter {α : Type} [DecidableEq α] (l : List α) :
    dedupConsec l = l.destutter (· ≠ ·) := by
  cases l with
  | nil => rfl
  | cons a l =>
    rw [List.destutter_cons']
    exact cons_dedupFrom a l

theorem cleanCoords_chain' {α : Type} [DecidableEq α] (l : List α) :
    List.Chain' (· ≠ ·) (cleanCoords l) := by
  have hd : List.Chain' (· ≠ ·) (dedupConsec l) := by
    rw [dedupConsec_eq_destutter]
    exact List.destutter_is_chain' (· ≠ ·) l
  have hpre := List.dropLast_prefix (dedupConsec l)
  rw [cleanCoords, dropClosing]
  split_ifs with h
  · exact List.Chain'.prefix hd hpre
  · exact hd

theorem cleanCoords_sublist {α : Type} [DecidableEq α] (l : List α) :
    List.Sublist (cleanCoords l) l := by
  have hdl : List.Sublist (dedupConsec l) l := by
    rw [dedupConsec_eq_destutter]
    exact List.destutter_sublist (R := (· ≠ ·)) l
  have hpre := List.dropLast_prefix (dedupConsec l)
  rw [cleanCoords, dropClosing]
  split_ifs with h
  · exact List.Sublist.trans (List.IsPrefix.sublist hpre) hdl
  · exact hdl

/-- Claim C1: for every raw coordinate ring, the cleaning step of
`get_parking_lots_polygons` yields a ring with no two consecutive equal
points; it is a sublist of the raw ring (all kept points in original order);
and when the deduplicated ring has more than 2 points and its first point
equals its last, exactly that closing point is dropped, otherwise the
deduplicated ring is kept as is. -/
theorem cleanCoords_ring_cleaning {α : Type} [DecidableEq α] (raw : List α) :
    List.Chain' (· ≠ ·) (cleanCoords raw) ∧
    List.Sublist (cleanCoords raw) raw ∧
    (2 < (dedupConsec raw).length → (dedupConsec raw).head? = (dedupConsec raw).getLast? →
      cleanCoords raw = (dedupConsec raw).dropLast) ∧
    (¬ (2 < (dedupConsec raw).length ∧ (dedupConsec raw).head? = (dedupConsec raw).getLast?) →
      cleanCoords raw = dedupConsec raw) := by
  refine ⟨cleanCoords_chain' raw, cleanCoords_sublist raw, ?_, ?_⟩
  · intro h1 h2
    rw [cleanCoords, dropClosing, if_pos ⟨h1, h2⟩]
  · intro h
    rw [cleanCoords, dropClosing, if_neg h]

/-- Witness for C1 on a concrete closed ring with a repeated point. -/
theorem cleanCoords_ring_cleaning_witness :
    List.Chain' (· ≠ ·) (cleanCoords [((0:ℤ),(0:ℤ)), (0,0), (1,0), (2,0), (0,0)]) ∧
    cleanCoords [((0:ℤ),(0:ℤ)), (0,0), (1,0), (2,0), (0,0)] =
      (dedupConsec [((0:ℤ),(0:ℤ)), (0,0), (1,0), (2,0), (0,0)]).dropLast :=
  ⟨(cleanCoords_ring_cleaning [((0:ℤ),(0:ℤ)), (0,0), (1,0), (2,0), (0,0)]).1,
   (cleanCoords_ring_cleaning [((0:ℤ),(0:ℤ)), (0,0), (1,0), (2,0), (0,0)]).2.2.1
     (by decide) (by decide)⟩

/-- One element of an Overpass geometry response, as consumed by
`get_parking_lots_polygons`: the `geometry` key may be absent. -/
structure OverpassElement (α : Type) where
  id : ℕ
  etype : String
  geometry : Option (List α)
  tags : List (String × String)
deriving DecidableEq

/-- One entry of the `results` list built by `get_parking_lots_polygons`
(the shapely `polygon` object is represented by its coordinate ring). -/
structure LotResult (α : Type) where
  id : ℕ
  etype : String
  coordinates : List α
  area_m2 : ℚ
  tags : List (String × String)
deriving DecidableEq

/-- Round-half-to-even on rationals, the semantics of the Python builtin
`round` on the integer grid. -/
def roundHalfEven (x : ℚ) : ℤ :=
  if x - x.floor < 1/2 then x.floor
  else if 1/2 < x - x.floor then x.floor + 1
  else if x.floor % 2 = 0 then x.floor else x.floor + 1

/-- Python `round(area, 2)` used for the `area_m2` field. -/
def pyRound2 (q : ℚ) : ℚ := (roundHalfEven (q * 100) : ℚ) / 100

/-- Body of the inner loop of `get_parking_lots_polygons` for one geometry
element: skip elements without geometry, clean the ring, reject rings of
fewer than 3 points, reject invalid polygons (`isValid` is the shapely
`Polygon(coords).is_valid` oracle), and compute the area (`areaOf` is the
centroid/UTM-projection/area oracle of the `try` block, `none` meaning the
block raised), rounding it to two decimals. -/
def processElement {α : Type} [DecidableEq α] (isValid : List α → Bool)
    (areaOf : List α → Option ℚ) (el : OverpassElement α) : Option (LotResult α) :=
  match el.geometry with
  | none => none
  | some raw =>
    if (cleanCoords raw).length < 3 then none
    else if isValid (cleanCoords raw) then
      match areaOf (cleanCoords raw) with
      | none => none
      | some area => some ⟨el.id, el.etype, cleanCoords raw, pyRound2 area, el.tags⟩
    else none

/-- Result assembly of `get_parking_lots_polygons`: for each way id of the
phase-A lookup, fetch its geometry (`geomFetch` is the per-way
`overpass_query` oracle, `none` meaning it raised, in which case the way is
skipped) and process every returned element. -/
def get_parking_lots_polygons {α : Type} [DecidableEq α] (isValid : List α → Bool)
    (areaOf : List α → Option ℚ) (geomFetch : ℕ → Option (List (OverpassElement α)))
    (lookupIds : List ℕ) : List (LotResult α) :=
  lookupIds.flatMap fun wayId =>
    match geomFetch wayId with
    | none => []
    | some els => els.filterMap (processElement isValid areaOf)

theorem processElement_some_length {α : Type} [DecidableEq α]
    (isValid : List α → Bool) (areaOf : List α → Option ℚ)
    (el : OverpassElement α) (r : LotResult α)
    (h : processElement isValid areaOf el = some r) : 3 ≤ r.coordinates.length := by
  obtain ⟨i, ty, geom, tg⟩ := el
  cases geom with
  | none => exact absurd h (by simp [processElement])
  | some raw =>
    by_cases hlen : (cleanCoords raw).length < 3
    · simp [processElement, hlen] at h
    · by_cases hv : isValid (cleanCoords raw)
      · cases ha : areaOf (cleanCoords raw) with
        | none => simp [processElement, hlen, hv, ha] at h
        | some area =>
          simp only [processElement, if_neg hlen, if_pos hv, ha,
            Option.some.injEq] at h
          rw [← h]
          exact Nat.le_of_not_lt hlen
      · simp [processElement, hlen, hv] at h

/-- Claim C2: a geometry element whose cleaned ring has fewer than 3 points
contributes nothing, and every result returned by
`get_parking_lots_polygons` has a coordinate ring of at least 3 points. -/
theorem results_have_ring_ge_three {α : Type} [DecidableEq α]
    (isValid : List α → Bool) (areaOf : List α → Option ℚ)
    (geomFetch : ℕ → Option (List (OverpassElement α))) (lookupIds : List ℕ) :
    (∀ el : OverpassElement α, ∀ raw, el.geometry = some raw →
      (cleanCoords raw).length < 3 → processElement isValid areaOf el = none) ∧
    (∀ r ∈ get_parking_lots_polygons isValid areaOf geomFetch lookupIds,
      3 ≤ r.coordinates.length) := by
  constructor
  · intro el raw hg hlen
    obtain ⟨i, ty, geom, tg⟩ := el
    cases geom with
    | none => simp [processElement]
    | some raw2 =>
      simp only [Option.some.injEq] at hg
      subst hg
      simp [processElement, hlen]
  · intro r hr
    rw [get_parking_lots_polygons] at hr
    obtain ⟨wid, _, hr2⟩ := List.mem_flatMap.mp hr
    cases hfetch : geomFetch wid with
    | none =>
      rw [hfetch] at hr2
      exact absurd hr2 (by simp)
    | some els =>
      rw [hfetch] at hr2
      obtain ⟨el, _, hpe⟩ := List.mem_filterMap.mp hr2
      exact processElement_some_length isValid areaOf el r hpe

/-- Concrete geometry element (a triangle given as a closed ring) used by
the concrete evaluations below. -/
def elTriangle : OverpassElement (ℤ × ℤ) :=
  ⟨7, "way", some [((0:ℤ),(0:ℤ)), (1,0), (0,1), (0,0)], []⟩

/-- The result record `processElement` produces for `elTriangle` with an
always-valid oracle and an area oracle returning 5. -/
def lotTriangle : LotResult (ℤ × ℤ) :=
  ⟨7, "way", cleanCoords [((0:ℤ),(0:ℤ)), (1,0), (0,1), (0,0)], pyRound2 5, []⟩

/-- Witness for C2: a 2-point ring is rejected, and the concrete triangle
result carries a ring of 3 points. -/
theorem results_have_ring_ge_three_witness :
    processElement (fun _ => true) (fun _ => some (5:ℚ))
      (⟨6, "way", some [((0:ℤ),(0:ℤ)), (1,0)], []⟩ : OverpassElement (ℤ × ℤ)) = none ∧
    3 ≤ lotTriangle.coordinates.length :=
  ⟨(results_have_ring_ge_three (fun _ => true) (fun _ => some (5:ℚ))
      (fun _ => some [elTriangle]) [7]).1 _ [((0:ℤ),(0:ℤ)), (1,0)] rfl (by decide),
   (results_have_ring_ge_three (fun _ => true) (fun _ => some (5:ℚ))
      (fun _ => some [elTriangle]) [7]).2 lotTriangle
     (List.mem_singleton_self lotTriangle)⟩

/-- Claim C5: a geometry element whose cleaned ring is an invalid polygon
(`isValid` false), or whose projection/area computation raises (`areaOf`
returns `none`), yields no result, and such an element contributes nothing
to the filterMap over the geometry elements; the function is total, so no
error propagates to the caller. -/
theorem invalid_or_failing_elements_skipped {α : Type} [DecidableEq α]
    (isValid : List α → Bool) (areaOf : List α → Option ℚ)
    (el : OverpassElement α) (raw : List α) (hg : el.geometry = some raw) :
    (isValid (cleanCoords raw) = false → processElement isValid areaOf el = none) ∧
    (areaOf (cleanCoords raw) = none → processElement isValid areaOf el = none) ∧
    (∀ rest : List (OverpassElement α), processElement isValid areaOf el = none →
      (el :: rest).filterMap (processElement isValid areaOf) =
        rest.filterMap (processElement isValid areaOf)) := by
  obtain ⟨i, ty, geom, tg⟩ := el
  cases geom with
  | none => exact Option.noConfusion hg
  | some raw2 =>
    simp only [Option.some.injEq] at hg
    subst hg
    refine ⟨?_, ?_, ?_⟩
    · intro hv
      by_cases h3 : (cleanCoords raw2).length < 3 <;>
        simp [processElement, h3, hv]
    · intro ha
      by_cases h3 : (cleanCoords raw2).length < 3 <;>
        by_cases hv : isValid (cleanCoords raw2) <;>
          simp [processElement, h3, hv, ha]
    · intro rest hnone
      simp [List.filterMap_cons, hnone]

/-- Witness for C5: the triangle element is skipped under an oracle that
declares it invalid, and under an area oracle that raises. -/
theorem invalid_or_failing_elements_skipped_witness :
    processElement (fun _ => false) (fun _ => some (5:ℚ)) elTriangle = none ∧
    processElement (fun _ => true) (fun _ => (none : Option ℚ)) elTriangle = none :=
  ⟨(invalid_or_failing_elements_skipped (fun _ => false) (fun _ => some (5:ℚ))
      elTriangle _ rfl).1 rfl,
   (invalid_or_failing_elements_skipped (fun _ => true) (fun _ => (none : Option ℚ))
      elTriangle _ rfl).2.1 rfl⟩

/-- Python `int()` conversion, truncation toward zero, on a rational. -/
def pyInt (q : ℚ) : ℤ := if 0 ≤ q then q.floor else -((-q).floor)

/-- UTM zone selection of `get_parking_lots_polygons`:
`zone = int((lon_c + 180) / 6) + 1`. -/
def utmZone (lonC : ℚ) : ℤ := pyInt ((lonC + 180) / 6) + 1

/-- EPSG code selection of `get_parking_lots_polygons`:
`epsg = (32600 + zone) if lat_c >= 0 else (32700 + zone)`. -/
def utmEpsg (lonC latC : ℚ) : ℤ :=
  if 0 ≤ latC then 32600 + utmZone lonC else 32700 + utmZone lonC

theorem ratFloor_eq_floor (q : ℚ) : q.floor = ⌊q⌋ :=
  (Rat.floor_def' q).trans Rat.floor_def.symm

/-- Claim C3: for a centroid with longitude at least -180, the selected UTM
zone is `⌊(lon_c + 180) / 6⌋ + 1`, and the EPSG code is `32600 + zone` for a
northern-hemisphere centroid (latitude ≥ 0) and `32700 + zone` for a
southern one (latitude < 0). -/
theorem utm_zone_epsg_selection (lonC latC : ℚ) (h : -180 ≤ lonC) :
    utmZone lonC = ⌊(lonC + 180) / 6⌋ + 1 ∧
    (0 ≤ latC → utmEpsg lonC latC = 32600 + utmZone lonC) ∧
    (latC < 0 → utmEpsg lonC latC = 32700 + utmZone lonC) := by
  have h0 : (0:ℚ) ≤ lonC + 180 := by linarith
  have hq : 0 ≤ (lonC + 180) / 6 := div_nonneg h0 (by norm_num)
  refine ⟨?_, ?_, ?_⟩
  · rw [utmZone, pyInt, if_pos hq, ratFloor_eq_floor]
  · intro hl
    rw [utmEpsg, if_pos hl]
  · intro hl
    rw [utmEpsg, if_neg (not_le.mpr hl)]

/-- Witness for C3 at longitude 30, latitude 50. -/
theorem utm_zone_epsg_selection_witness :
    (-180 ≤ (30:ℚ)) ∧
    (utmZone 30 = ⌊((30:ℚ) + 180) / 6⌋ + 1 ∧
     ((0:ℚ) ≤ 50 → utmEpsg 30 50 = 32600 + utmZone 30) ∧
     ((50:ℚ) < 0 → utmEpsg 30 50 = 32700 + utmZone 30)) :=
  ⟨by decide, utm_zone_epsg_selection 30 50 (by decide)⟩

/-- One entry of the list returned by `get_metro_station_location`. -/
structure StationLocation where
  name : String
  lat : ℚ
  lon : ℚ
deriving DecidableEq

/-- A Flask route outcome: a JSON body (implicit status 200), or an error
body with an explicit status code. -/
inductive HttpResult (β : Type) where
  | ok : β → HttpResult β
  | err : String → ℕ → HttpResult β
deriving DecidableEq

/-- HTTP status of a route outcome (Flask defaults a bare body to 200). -/
def httpStatus {β : Type} : HttpResult β → ℕ
  | HttpResult.ok _ => 200
  | HttpResult.err _ s => s

/-- The JSON body returned by the `/get_parking_lots` route on success. -/
structure ParkingLotsJson where
  station_name : String
  total_area_m2 : ℚ
deriving DecidableEq

/-- The `/get_parking_lots` route body, after the two upstream calls:
`stationLocations` is what `get_metro_station_location` returned and
`parkingLots` what `get_parking_lots_polygons` returned for the first
station's coordinates.  Missing station: 404; no lots: 404; otherwise the
JSON body with the summed area. -/
def get_parking_lots_route {α : Type} (station_name : String)
    (stationLocations : List StationLocation)
    (parkingLots : List (LotResult α)) : HttpResult ParkingLotsJson :=
  match stationLocations with
  | [] => HttpResult.err ("Could not find location for station") 404
  | _ :: _ =>
    if parkingLots.isEmpty then HttpResult.err ("No parking lots found") 404
    else HttpResult.ok ⟨station_name, (parkingLots.map fun lot => lot.area_m2).sum⟩

/-- A Python exception escaping a route handler. -/
inductive PyError where
  | valueError : String → PyError
deriving DecidableEq

/-- The `/map` route body: missing station gives a 404 response; otherwise
`poly_area` is built from the lots and destructured by
`polygons, areas = zip(*poly_area)`, which raises `ValueError` when
`poly_area` is empty; otherwise the numbers-length check of
`visualize_multiple_polygons` runs on `areas` and the rendered map html
(`renderHtml` is the folium oracle) is returned with status 200. -/
def generate_map_route {α : Type} (stationLocations : List StationLocation)
    (parkingLots : List (LotResult α))
    (renderHtml : List (List α) → List ℚ → String) :
    Except PyError (String × ℕ) :=
  match stationLocations with
  | [] => Except.ok ("Error: Could not find location for station.", 404)
  | _ :: _ =>
    match parkingLots.map fun lot => (lot.coordinates, lot.area_m2) with
    | [] => Except.error (PyError.valueError ("not enough values to unpack"))
    | pa :: rest =>
      if ((pa :: rest).map Prod.snd).length ≠ ((pa :: rest).map Prod.fst).length then
        Except.error (PyError.valueError ("Length of numbers must match number of polygons"))
      else
        Except.ok (renderHtml ((pa :: rest).map Prod.fst) ((pa :: rest).map Prod.snd), 200)

/-- Claim C4: whenever `/get_parking_lots` answers with a JSON body, its
`total_area_m2` is the sum of the `area_m2` fields of the returned lots. -/
theorem total_area_eq_sum {α : Type} (station_name : String)
    (stationLocations : List StationLocation) (parkingLots : List (LotResult α))
    (body : ParkingLotsJson)
    (h : get_parking_lots_route station_name stationLocations parkingLots =
      HttpResult.ok body) :
    body.total_area_m2 = (parkingLots.map fun lot => lot.area_m2).sum := by
  cases stationLocations with
  | nil => simp [get_parking_lots_route] at h
  | cons loc rest =>
    cases he : parkingLots.isEmpty with
    | true => simp [get_parking_lots_route, he] at h
    | false =>
      simp only [get_parking_lots_route, he, Bool.false_eq_true, if_false,
        HttpResult.ok.injEq] at h
      rw [← h]

/-- Two concrete lot records used in the concrete evaluations below. -/
def lotsPair : List (LotResult (ℤ × ℤ)) :=
  [⟨1, "way", [], 3, []⟩, ⟨2, "way", [], 4, []⟩]

/-- Witness for C4 on two concrete lots. -/
theorem total_area_eq_sum_witness :
    ∃ body, get_parking_lots_route "S" [⟨"S", 0, 0⟩] lotsPair = HttpResult.ok body ∧
      body.total_area_m2 = (lotsPair.map fun lot => lot.area_m2).sum :=
  ⟨⟨"S", (lotsPair.map LotResult.area_m2).sum⟩, rfl,
   total_area_eq_sum "S" [⟨"S", 0, 0⟩] lotsPair ⟨"S", (lotsPair.map LotResult.area_m2).sum⟩ rfl⟩

/-- Claim C6: when the station lookup returns no matching stations, both
`/get_parking_lots` and `/map` respond with HTTP status 404. -/
theorem missing_station_404 {α : Type} (station_name : String)
    (parkingLots : List (LotResult α))
    (renderHtml : List (List α) → List ℚ → String) :
    httpStatus (get_parking_lots_route station_name [] parkingLots) = 404 ∧
    generate_map_route [] parkingLots renderHtml =
      Except.ok ("Error: Could not find location for station.", 404) :=
  ⟨rfl, rfl⟩

/-- Claim C8: a station that is found but has no parking lots makes the
`/map` route raise an unhandled `ValueError` (from unpacking the empty
`poly_area` list) instead of returning an HTTP response. -/
theorem map_empty_lots_value_error {α : Type} (loc : StationLocation)
    (rest : List StationLocation)
    (renderHtml : List (List α) → List ℚ → String) :
    generate_map_route (loc :: rest) ([] : List (LotResult α)) renderHtml =
      Except.error (PyError.valueError ("not enough values to unpack")) :=
  rfl

/-- Outcome of posting the query to one mirror server: a successful
response carrying parsed JSON `J`, a 429 rate-limit response, or anything
that raises (connection error, bad status, timeout). -/
inductive ServerResponse (J : Type) where
  | success : J → ServerResponse J
  | rateLimited : ServerResponse J
  | failure : ServerResponse J
deriving DecidableEq

/-- Whether a mirror server's response succeeds. -/
def responseOk {J : Type} : ServerResponse J → Bool
  | ServerResponse.success _ => true
  | ServerResponse.rateLimited => false
  | ServerResponse.failure => false

/-- `overpass_query`: try the mirror servers sequentially; a 429 response
sleeps and moves on, a raising response moves on, the first success returns
its parsed JSON, and exhausting the list raises. -/
def overpass_query {J : Type} : List (ServerResponse J) → Except String J
  | [] => Except.error ("All Overpass servers failed or timed out")
  | ServerResponse.success j :: _ => Except.ok j
  | ServerResponse.rateLimited :: rest => overpass_query rest
  | ServerResponse.failure :: rest => overpass_query rest

/-- Claim C7: `overpass_query` returns the parsed JSON of the first server
whose response succeeds (in list order), and raises exactly when every
server fails, is rate-limited, or times out. -/
theorem overpass_query_mirror_fallback {J : Type}
    (responses : List (ServerResponse J)) :
    (∀ j : J, overpass_query responses = Except.ok j ↔
      responses.find? responseOk = some (ServerResponse.success j)) ∧
    ((∃ m, overpass_query responses = Except.error m) ↔
      ∀ r ∈ responses, responseOk r = false) := by
  induction responses with
  | nil =>
    constructor
    · intro j
      simp [overpass_query]
    · simp [overpass_query]
  | cons r rest ih =>
    cases r with
    | success j0 =>
      constructor
      · intro j
        simp [overpass_query, List.find?, responseOk]
      · simp [overpass_query, List.find?, responseOk]
    | rateLimited =>
      constructor
      · intro j
        have hstep : List.find? responseOk (ServerResponse.rateLimited :: rest) =
            List.find? responseOk rest := by
          simp [List.find?, responseOk]
        rw [hstep]
        exact ih.1 j
      · have hstep : (∀ r ∈ ServerResponse.rateLimited :: rest, responseOk r = false) ↔
            ∀ r ∈ rest, responseOk r = false := by
          simp [responseOk]
        rw [hstep]
        exact ih.2
    | failure =>
      constructor
      · intro j
        have hstep : List.find? responseOk (ServerResponse.failure :: rest) =
            List.find? responseOk rest := by
          simp [List.find?, responseOk]
        rw [hstep]
        exact ih.1 j
      · have hstep : (∀ r ∈ ServerResponse.failure :: rest, responseOk r = false) ↔
            ∀ r ∈ rest, responseOk r = false := by
          simp [responseOk]
        rw [hstep]
        exact ih.2

/-- Witness for C7: with a failing first mirror and two succeeding ones,
the second mirror's JSON is returned. -/
theorem overpass_query_mirror_fallback_witness :
    overpass_query [ServerResponse.failure, ServerResponse.success (7:ℕ),
      ServerResponse.success 9] = Except.ok 7 :=
  ((overpass_query_mirror_fallback [ServerResponse.failure,
      ServerResponse.success (7:ℕ), ServerResponse.success 9]).1 7).mpr (by decide)

/-- One node element of the Overpass response read by
`get_metro_station_names`; the `tags` mapping may be absent. -/
structure OsmNode where
  id : ℕ
  tags : Option (List (String × String))
deriving DecidableEq

/-- The name tag of an element, when present
(`"tags" in element and "name" in element["tags"]`). -/
def tagName (e : OsmNode) : Option String :=
  match e.tags with
  | none => none
  | some ts => ts.lookup ("name")

/-- Post-processing of `get_metro_station_names`: the set comprehension
collects the name tags that exist, and `sorted` turns the set into an
ascending list; the set-then-sort is embedded as dedup-then-sort. -/
def get_metro_station_names (elements : List OsmNode) : List String :=
  List.insertionSort (· ≤ ·) (elements.filterMap tagName).dedup

/-- Claim C9: `get_metro_station_names` returns an ascending, duplicate-free
list, every entry of which is the name tag of some response element. -/
theorem station_names_sorted_nodup (elements : List OsmNode) :
    List.Sorted (· ≤ ·) (get_metro_station_names elements) ∧
    (get_metro_station_names elements).Nodup ∧
    ∀ s ∈ get_metro_station_names elements, ∃ e ∈ elements, tagName e = some s := by
  have hperm := List.perm_insertionSort (α := String) (· ≤ ·)
    (elements.filterMap tagName).dedup
  refine ⟨List.sorted_insertionSort _ _, ?_, ?_⟩
  · exact hperm.symm.nodup (List.nodup_dedup _)
  · intro s hs
    have h1 : s ∈ (elements.filterMap tagName).dedup := hperm.mem_iff.mp hs
    exact List.mem_filterMap.mp (List.mem_dedup.mp h1)

/-- Witness for C9 on a two-element response, one element without tags. -/
theorem station_names_sorted_nodup_witness :
    ∃ e ∈ [(⟨1, some [("name", "B")]⟩ : OsmNode), ⟨2, none⟩], tagName e = some "B" :=
  (station_names_sorted_nodup [⟨1, some [("name", "B")]⟩, ⟨2, none⟩]).2.2 "B" (by decide)

/-- Default numbering of `visualize_multiple_polygons`
(`numbers = [str(i + 1) for i in range(len(polygons))]`). -/
def visualizeDefaultNumbers (numPolygons : ℕ) : List String :=
  (List.range numPolygons).map fun i => toString (i + 1)

/-- Label validation of `visualize_multiple_polygons`: resolve the optional
`numbers` argument to the default labels, then raise `ValueError` when the
label count differs from the polygon count, otherwise continue with the
labels. -/
def visualizeNumbersCheck (numPolygons : ℕ) (numbers : Option (List String)) :
    Except PyError (List String) :=
  if (numbers.getD (visualizeDefaultNumbers numPolygons)).length ≠ numPolygons then
    Except.error (PyError.valueError ("Length of numbers must match number of polygons"))
  else Except.ok (numbers.getD (visualizeDefaultNumbers numPolygons))

/-- Claim C10: `visualize_multiple_polygons` raises `ValueError` exactly
when an explicit numbers list of the wrong length is supplied; an omitted
numbers argument defaults to the labels "1" … "n" and raises nothing. -/
theorem visualize_numbers_length_check (numPolygons : ℕ)
    (numbers : Option (List String)) :
    ((∃ err, visualizeNumbersCheck numPolygons numbers = Except.error err) ↔
      ∃ ns, numbers = some ns ∧ ns.length ≠ numPolygons) ∧
    (numbers = none →
      visualizeNumbersCheck numPolygons numbers =
        Except.ok (visualizeDefaultNumbers numPolygons)) := by
  have hlen : (visualizeDefaultNumbers numPolygons).length = numPolygons := by
    simp [visualizeDefaultNumbers]
  constructor
  · cases numbers with
    | none =>
      constructor
      · rintro ⟨err, he⟩
        rw [visualizeNumbersCheck] at he
        simp [hlen] at he
      · rintro ⟨ns, hns, _⟩
        exact Option.noConfusion hns
    | some ns =>
      by_cases h : ns.length = numPolygons
      · simp [visualizeNumbersCheck, h]
      · simp [visualizeNumbersCheck, h]
  · rintro rfl
    rw [visualizeNumbersCheck]
    simp [hlen]

/-- Witness for C10: a 1-label list for 2 polygons raises, an omitted list
for 2 polygons yields the default labels. -/
theorem visualize_numbers_length_check_witness :
    (∃ err, visualizeNumbersCheck 2 (some [("a")]) = Except.error err) ∧
    visualizeNumbersCheck 2 none = Except.ok (visualizeDefaultNumbers 2) :=
  ⟨((visualize_numbers_length_check 2 (some [("a")])).1).mpr ⟨[("a")], rfl, by decide⟩,
   (visualize_numbers_length_check 2 none).2 rfl⟩
